import Mathlib

/-!
Verification of the pysrs scanning core against its specification.

Shallow embedding of:
  * `src/pysrs/new_mains/run_image_2d.py` — `raster_scan`, `raster_scan_with_ttl`
    (hardware-call traces, TTL signal, reconstruction of images from the
    acquisition buffer);
  * `src/pysrs/old_utils/run.py` — the reference `raster_scan_rpoc`
    (mask encoding and its hardware-call trace);
  * `src/pysrs/mains/acquisition.py` — `start_scan`, `scan`, `acquire`,
    `acquire_multiple` (control flow, guards, error handling).

Analog samples are modelled as rationals, hardware interactions as explicit
event traces, and Python exceptions as `Except` / explicit error components.
Definitions come first, then the theorems.
-/

/-- Scan configuration and galvo parameters.  The fields mirror the config
dictionary passed to the `Galvo` class (`numsteps_x`, `numsteps_y`,
`extrasteps_left`, `extrasteps_right`, `rate`, `device`, `ao_chans`), plus
`pixel_samples`, the per-pixel sample count. -/
structure Galvo where
  numsteps_x : Nat
  numsteps_y : Nat
  extrasteps_left : Nat
  extrasteps_right : Nat
  pixel_samples : Nat
  rate : ℚ
  device : String
  ao_chans : List String
  deriving DecidableEq

/-- Modelled from the spec: `galvo_funcs.py` (the `Galvo` class) is not under
src; spec §3 defines `total_x = numsteps_x + extrasteps_left +
extrasteps_right`. -/
def Galvo.total_x (g : Galvo) : Nat :=
  g.extrasteps_left + (g.numsteps_x + g.extrasteps_right)

/-- Modelled from the spec: spec §3 defines `total_y = numsteps_y`. -/
def Galvo.total_y (g : Galvo) : Nat := g.numsteps_y

/-- Modelled from the spec: spec §3 defines the trajectory/acquisition length
as `total_x * total_y * pixel_samples`. -/
def Galvo.total_samples (g : Galvo) : Nat :=
  g.total_x * g.total_y * g.pixel_samples

/-- Modelled from the spec: spec §3 says the trajectory (`galvo.waveform`,
whose column count `composite_wave.shape[1]` is used by the first
`cfg_samp_clk_timing` call on the AO task) has length `total_samples`. -/
def Galvo.waveformLen (g : Galvo) : Nat := g.total_samples

/-! ## Reconstructor (`raster_scan`, lines 52–74 of run_image_2d.py)

`acq_data.reshape(total_y, total_x, pixel_samples)` followed by
`np.mean(..., axis=2)` turns the row-major buffer into a `total_y × total_x`
grid whose `(r, c)` entry is the mean of the `pixel_samples` consecutive
samples starting at `(r*total_x + c) * pixel_samples`; the grid is then
cropped to columns `[extrasteps_left, extrasteps_left + numsteps_x)`. -/

/-- Mean of the `ps` consecutive samples of pixel number `idx` (row-major over
the full grid) in the raw buffer. -/
def pixelAverage (buf : List ℚ) (ps : Nat) (idx : Nat) : ℚ :=
  (((buf.drop (idx * ps)).take ps).sum) / (ps : ℚ)

/-- The `total_y × total_x` grid after reshape + mean over axis 2. -/
def averagedGrid (g : Galvo) (buf : List ℚ) : List (List ℚ) :=
  (List.range g.total_y).map fun r =>
    (List.range g.total_x).map fun c =>
      pixelAverage buf g.pixel_samples (r * g.total_x + c)

/-- Column slice `data2d[:, x1:x2]` of one row, with `x1 = extrasteps_left`
and `x2 = extrasteps_left + numsteps_x`. -/
def cropRow (g : Galvo) (row : List ℚ) : List ℚ :=
  (row.drop g.extrasteps_left).take g.numsteps_x

/-- The whole fixed-dwell reconstruction of one channel: average per pixel,
then crop the padding columns. -/
def reconstruct (g : Galvo) (buf : List ℚ) : List (List ℚ) :=
  (averagedGrid g buf).map (cropRow g)

/-- The concrete configuration of the crop-correctness test in the spec:
`numsteps_x = 4`, `numsteps_y = 2`, `extrasteps_left = 1`,
`extrasteps_right = 1`, `pixel_samples = 3`. -/
def exGalvo : Galvo :=
  { numsteps_x := 4, numsteps_y := 2, extrasteps_left := 1,
    extrasteps_right := 1, pixel_samples := 3, rate := 1000,
    device := "Dev1", ao_chans := ["ao1", "ao0"] }

/-- Synthetic buffer: every sample at full-grid column `c`, row `r` equals
`10*r + c`. -/
def exBuf : List ℚ :=
  (List.range 2).flatMap fun r =>
    (List.range 6).flatMap fun c =>
      List.replicate 3 ((10 * r + c : Nat) : ℚ)

/-! ## MaskEncoder (`raster_scan_rpoc`, lines 124–147 of old_utils/run.py)

For each `row_idx in range(numsteps_y)` the mask row is concatenated between
`np.zeros(extrasteps_left, dtype=bool)` and
`np.zeros(extrasteps_right, dtype=bool)`; the padded grid is flattened with
`ravel()` and each boolean repeated `pixel_samples` times by `np.repeat`. -/

/-- One padded row: `extrasteps_left` falses, the mask row, then
`extrasteps_right` falses. -/
def padRow (g : Galvo) (row : List Bool) : List Bool :=
  List.replicate g.extrasteps_left false ++ row
    ++ List.replicate g.extrasteps_right false

/-- The padded mask built row by row over `range(numsteps_y)`. -/
def paddedMask (g : Galvo) (mask : List (List Bool)) : List (List Bool) :=
  (List.range g.numsteps_y).map fun r => padRow g (mask.getD r [])

/-- The digital modulation signal: padded mask flattened row-major, each
boolean repeated `pixel_samples` times. -/
def encodeMask (g : Galvo) (mask : List (List Bool)) : List Bool :=
  (paddedMask g mask).flatten.flatMap fun b =>
    List.replicate g.pixel_samples b

/-- A concrete `2 × 4` mask for the MaskEncoder witness. -/
def exMask : List (List Bool) :=
  [[true, false, true, true], [false, true, false, false]]

/-! ## SyncController: hardware-call traces

Each scan function is embedded as its straight-line sequence of driver calls
(`Step` list).  A step may require resolving a module-level Python name
(imports are the only names defined at module level in run_image_2d.py);
`runSteps` executes steps in order, stopping with a `NameError` at the first
unresolvable name, as the Python interpreter does. -/

/-- The three NI-DAQmx tasks of one transaction. -/
inductive TaskId where
  | ao
  | ai
  | dout
  deriving DecidableEq

/-- Arguments of one `cfg_samp_clk_timing` call: rate, optional external
clock-source terminal (`none` = internally generated), and
`samps_per_chan`. -/
structure ClkCfg where
  rate : ℚ
  source : Option String
  samps : Nat
  deriving DecidableEq

/-- One driver call. -/
inductive Event where
  | addChans (t : TaskId) (n : Nat)
  | cfgTiming (t : TaskId) (c : ClkCfg)
  | write (t : TaskId)
  | start (t : TaskId)
  | waitDone (t : TaskId) (timeout : ℚ)
  | read (n : Nat)
  deriving DecidableEq

/-- A step of the Python function body: a driver call, a driver call whose
expression references a module-level name, or a pure expression referencing a
module-level name. -/
inductive Step where
  | emit (e : Event)
  | need (n : String) (e : Event)
  | check (n : String)

/-- Execute steps in order; the first reference to a name missing from `env`
raises a `NameError`, so later events never happen. -/
def runSteps (env : List String) : List Step → List Event × Option String
  | [] => ([], none)
  | .emit e :: rest =>
      let p := runSteps env rest
      (e :: p.1, p.2)
  | .need n e :: rest =>
      if n ∈ env then
        let p := runSteps env rest
        (e :: p.1, p.2)
      else ([], some n)
  | .check n :: rest =>
      if n ∈ env then runSteps env rest
      else ([], some n)

/-- The as-written event sequence of a step list (name resolution aside). -/
def stepsEvents : List Step → List Event
  | [] => []
  | .emit e :: rest => e :: stepsEvents rest
  | .need _ e :: rest => e :: stepsEvents rest
  | .check _ :: rest => stepsEvents rest

/-- Module-level names of `new_mains/run_image_2d.py` (lines 1–4 import
`nidaqmx`, `AcquisitionType`, `np`, `Galvo`; the module then defines the two
scan functions).  `LineGrouping` is never imported. -/
def runImage2dGlobals : List String :=
  ["nidaqmx", "AcquisitionType", "np", "Galvo",
   "raster_scan", "raster_scan_with_ttl"]

/-- The slaved tasks' sample-clock source terminal,
`f'/{galvo.device}/ao/SampleClock'`. -/
def aoClock (g : Galvo) : String := "/" ++ g.device ++ "/ao/SampleClock"

/-- The wait-until-done timeout, `galvo.total_samples / galvo.rate + 5`. -/
def scanTimeout (g : Galvo) : ℚ := (g.total_samples : ℚ) / g.rate + 5

/-- Body of `raster_scan` (run_image_2d.py lines 14–50), as written.  `nAi`
is the number of requested AI channels. -/
def rasterScanSteps (g : Galvo) (nAi : Nat) : List Step :=
  [.check "nidaqmx",
   .emit (.addChans .ao g.ao_chans.length),
   .need "AcquisitionType" (.cfgTiming .ao ⟨g.rate, none, g.waveformLen⟩),
   .emit (.addChans .ai nAi),
   .need "AcquisitionType" (.cfgTiming .ao ⟨g.rate, none, g.total_samples⟩),
   .need "AcquisitionType"
     (.cfgTiming .ai ⟨g.rate, some (aoClock g), g.total_samples⟩),
   .emit (.write .ao),
   .emit (.start .ai),
   .emit (.start .ao),
   .emit (.waitDone .ao (scanTimeout g)),
   .emit (.waitDone .ai (scanTimeout g)),
   .need "np" (.read g.total_samples)]

/-- Body of `raster_scan_with_ttl` (run_image_2d.py lines 86–138), as
written; the digital channel is added with
`line_grouping=LineGrouping.CHAN_PER_LINE` and the TTL-signal construction
references `np`. -/
def rasterScanWithTtlSteps (g : Galvo) (nAi : Nat) : List Step :=
  [.check "nidaqmx",
   .emit (.addChans .ao g.ao_chans.length),
   .need "AcquisitionType" (.cfgTiming .ao ⟨g.rate, none, g.waveformLen⟩),
   .emit (.addChans .ai nAi),
   .need "AcquisitionType" (.cfgTiming .ao ⟨g.rate, none, g.total_samples⟩),
   .need "AcquisitionType"
     (.cfgTiming .ai ⟨g.rate, some (aoClock g), g.total_samples⟩),
   .check "np",
   .need "LineGrouping" (.addChans .dout 1),
   .need "AcquisitionType"
     (.cfgTiming .dout ⟨g.rate, some (aoClock g), g.total_samples⟩),
   .emit (.write .ao),
   .emit (.write .dout),
   .emit (.start .ai),
   .emit (.start .ao),
   .emit (.start .dout),
   .emit (.waitDone .ao (scanTimeout g)),
   .emit (.waitDone .ai (scanTimeout g)),
   .emit (.waitDone .dout (scanTimeout g)),
   .need "np" (.read g.total_samples)]

/-- The as-written trace of `raster_scan`. -/
def rasterScanEvents (g : Galvo) (nAi : Nat) : List Event :=
  stepsEvents (rasterScanSteps g nAi)

/-- The as-written trace of `raster_scan_with_ttl`. -/
def rasterScanWithTtlEvents (g : Galvo) (nAi : Nat) : List Event :=
  stepsEvents (rasterScanWithTtlSteps g nAi)

/-- The reference `raster_scan_rpoc` (old_utils/run.py lines 66–158,
single-mask branch; the multi-mask branch issues the same start/wait/read
sequence). -/
def rasterScanRpocEvents (g : Galvo) (nAi : Nat) : List Event :=
  [.addChans .ao g.ao_chans.length,
   .cfgTiming .ao ⟨g.rate, none, g.waveformLen⟩,
   .addChans .ai nAi,
   .cfgTiming .ai ⟨g.rate, some (aoClock g), g.total_samples⟩,
   .addChans .dout 1,
   .cfgTiming .dout ⟨g.rate, some (aoClock g), g.total_samples⟩,
   .write .dout,
   .write .ao,
   .start .ai,
   .start .dout,
   .start .ao,
   .waitDone .ao (scanTimeout g),
   .waitDone .dout (scanTimeout g),
   .waitDone .ai (scanTimeout g),
   .read g.total_samples]

/-- Does this event start task `t`? -/
def isStartOf (t : TaskId) : Event → Bool
  | .start t2 => t2 = t
  | _ => false

/-- Is this event a task start at all? -/
def isStart : Event → Bool
  | .start _ => true
  | _ => false

/-- Position of task `t`'s start call in a trace. -/
def startIdx (t : TaskId) (evs : List Event) : Nat :=
  evs.findIdx (isStartOf t)

/-- All `cfg_samp_clk_timing` arguments seen by task `t`, in call order. -/
def taskCfgs (t : TaskId) (evs : List Event) : List ClkCfg :=
  evs.filterMap fun e =>
    match e with
    | .cfgTiming t2 c => if t2 = t then some c else none
    | _ => none

/-- The configuration a task is left with (the last call wins). -/
def lastCfg (t : TaskId) (evs : List Event) : Option ClkCfg :=
  (taskCfgs t evs).getLast?

/-! ## The TTL signal of `raster_scan_with_ttl` (lines 116–117)

`ttl_signal = np.zeros(galvo.total_samples, dtype=np.uint8)` followed by
`ttl_signal[:galvo.total_samples // 2] = 1`: entry `i` is `1` exactly when
`i < total_samples // 2` (integer division), else `0`.  No mask is
consulted. -/

/-- The digital buffer written by `raster_scan_with_ttl`. -/
def ttlSignal (g : Galvo) : List Nat :=
  (List.range g.total_samples).map fun i =>
    if i < g.total_samples / 2 then 1 else 0

/-! ## Per-channel assembly of `raster_scan` (lines 11–12 and 52–74)

A bare string channel argument is wrapped into a one-element list; with one
channel the flat buffer is reconstructed directly, with several channels row
`i` of the read data is reconstructed for channel `i`, appended in request
order. -/

/-- Wrapping of a bare string argument:
`if isinstance(ai_channels, str): ai_channels = [ai_channels]`. -/
def normalizeChannels : String ⊕ List String → List String
  | .inl s => [s]
  | .inr l => l

/-- The list of per-channel images returned by `raster_scan`; `dataOf i` is
channel `i`'s raw sample buffer. -/
def rasterScanImages (g : Galvo) (chans : List String)
    (dataOf : Nat → List ℚ) : List (List (List ℚ)) :=
  if chans.length = 1 then [reconstruct g (dataOf 0)]
  else (List.range chans.length).map fun i => reconstruct g (dataOf i)

/-! ## GUI scan orchestration (`acquisition.py`)

The relevant state of the `gui` object: the `running` and `acquiring` flags,
the RPOC toggles read at the top of `start_scan`, and a count of scan worker
threads that have been launched. -/

/-- Mutable GUI state touched by `start_scan`/`acquire` guards. -/
structure Gui where
  running : Bool
  acquiring : Bool
  rpoc_enabled : Bool
  has_rpoc_mask : Bool
  threadsStarted : Nat
  deriving DecidableEq

/-- Embedding of `start_scan` (acquisition.py lines 12–37): it returns at
once if `running` is set; with RPOC enabled but no mask it shows an error and
returns; otherwise it sets `running` and launches one `scan` worker
thread. -/
def start_scan (gui : Gui) : Gui :=
  if gui.running then gui
  else if gui.rpoc_enabled && !gui.has_rpoc_mask then gui
  else { gui with running := true,
                  threadsStarted := gui.threadsStarted + 1 }

/-- Embedding of `acquire` (acquisition.py lines 81–135): it returns at once
(second component `false`, nothing acquired) if `running` is set and this is
not the startup call; otherwise it runs an acquisition batch, leaving
`acquiring` cleared by the `finally` block, and the second component is
`true`. -/
def acquire (gui : Gui) (startup : Bool) : Gui × Bool :=
  if gui.running && !startup then (gui, false)
  else ({ gui with acquiring := false }, true)

/-! ## Error handling (`acquire_multiple` and `scan`)

`acquire_multiple` wraps each frame in its own try/except inside the loop:
an exception is reported via a message box and the `for` loop moves on to the
next frame; successful frames are appended to `images`.  `scan` wraps its
whole `while gui.running` loop in one try/except/finally: the first exception
leaves the loop, and the `finally` block clears `running`.  A frame attempt
is modelled by its outcome, `Except E Img`. -/

/-- The success payload of a frame attempt, if any. -/
def exceptOk {E Img : Type} : Except E Img → Option Img
  | .ok d => some d
  | .error _ => none

/-- The images accumulated by `acquire_multiple` over the given frame
outcomes (the `gui.acquiring` cooperative-stop flag is modelled as held
throughout the batch). -/
def acquireMultiple {E Img : Type} (frames : List (Except E Img)) :
    List Img :=
  frames.foldl
    (fun acc f =>
      match f with
      | .ok d => acc ++ [d]
      | .error _ => acc) []

/-- What `scan` observes and mutates: the `running` flag and the frames
handed to `display_data` so far. -/
structure ScanState (Img : Type) where
  running : Bool
  displayed : List Img
  deriving DecidableEq

/-- The `finally` block of `scan`: clear `running` (and reset the
buttons). -/
def scanFinalize {Img : Type} (s : ScanState Img) : ScanState Img :=
  { s with running := false }

/-- The `while gui.running` loop of `scan` over successive frame outcomes:
a successful frame is displayed and the loop continues; the first exception
leaves the loop; the `finally` block runs on every exit. -/
def scanLoop {E Img : Type} (s : ScanState Img) :
    List (Except E Img) → ScanState Img
  | [] => scanFinalize s
  | f :: rest =>
      if s.running then
        match f with
        | .ok d => scanLoop { s with displayed := s.displayed ++ [d] } rest
        | .error _ => scanFinalize s
      else scanFinalize s

/-! ## Theorems -/

/-- Dropping a prefix of length `l` and keeping `nx` entries of a map over
`List.range (l + (nx + rr))` selects the middle block. -/
theorem map_range_drop_take (f : Nat → ℚ) (l nx rr : Nat) :
    (((List.range (l + (nx + rr))).map f).drop l).take nx
      = (List.range nx).map fun c => f (l + c) := by
  rw [List.range_add, List.map_append, List.drop_left' (by simp), List.map_map,
    ← List.map_take, List.take_range]
  simp [Nat.min_eq_left (Nat.le_add_right nx rr), Function.comp_def]

/-- C2: for every configuration and acquisition buffer of length
`total_x * total_y * pixel_samples`, the fixed-dwell reconstruction averages
each pixel's `pixel_samples` consecutive samples first and crops columns
`[extrasteps_left, extrasteps_left + numsteps_x)` of the averaged grid
afterwards, yielding a `numsteps_y × numsteps_x` image; in particular, on the
spec's synthetic example the output is `[[1,2,3,4],[11,12,13,14]]`. -/
theorem reconstruct_averages_then_crops (g : Galvo) (buf : List ℚ)
    (hlen : buf.length = g.total_x * g.total_y * g.pixel_samples) :
    reconstruct g buf
        = ((List.range g.numsteps_y).map fun r =>
            (List.range g.numsteps_x).map fun c =>
              pixelAverage buf g.pixel_samples
                (r * g.total_x + (g.extrasteps_left + c)))
      ∧ (reconstruct g buf).length = g.numsteps_y
      ∧ (∀ row ∈ reconstruct g buf, row.length = g.numsteps_x)
      ∧ reconstruct exGalvo exBuf = [[1, 2, 3, 4], [11, 12, 13, 14]] := by
  have key : reconstruct g buf
      = (List.range g.numsteps_y).map fun r =>
          (List.range g.numsteps_x).map fun c =>
            pixelAverage buf g.pixel_samples
              (r * g.total_x + (g.extrasteps_left + c)) := by
    unfold reconstruct averagedGrid cropRow Galvo.total_y
    rw [List.map_map]
    refine List.map_congr_left fun r _ => ?_
    show ((((List.range g.total_x).map fun c =>
        pixelAverage buf g.pixel_samples (r * g.total_x + c)).drop
          g.extrasteps_left).take g.numsteps_x) = _
    rw [Galvo.total_x]
    exact map_range_drop_take _ _ _ _
  refine ⟨key, ?_, ?_, ?_⟩
  · simp [key]
  · intro row hrow
    rw [key] at hrow
    obtain ⟨r, _, rfl⟩ := List.mem_map.mp hrow
    simp
  · norm_num [reconstruct, averagedGrid, cropRow, pixelAverage, exGalvo, exBuf,
      Galvo.total_x, Galvo.total_y, List.range_succ, List.replicate_succ]

/-- Witness for C2 at the spec's concrete configuration and buffer. -/
theorem reconstruct_averages_then_crops_witness :
    exBuf.length = exGalvo.total_x * exGalvo.total_y * exGalvo.pixel_samples
      ∧ reconstruct exGalvo exBuf = [[1, 2, 3, 4], [11, 12, 13, 14]] := by
  have h : exBuf.length
      = exGalvo.total_x * exGalvo.total_y * exGalvo.pixel_samples := by
    norm_num [exBuf, exGalvo, Galvo.total_x, Galvo.total_y, List.range_succ]
  exact ⟨h, (reconstruct_averages_then_crops exGalvo exBuf h).2.2.2⟩

/-- C3: for every mask of shape `numsteps_y × numsteps_x`, each padded row has
width `extrasteps_left + numsteps_x + extrasteps_right` with the leftmost
`extrasteps_left` and rightmost `extrasteps_right` entries false regardless of
mask content; the encoded signal is the row-major flattening of the padded
grid with every boolean repeated `pixel_samples` times, and its total length
is `total_samples`. -/
theorem encodeMask_pads_then_repeats (g : Galvo) (mask : List (List Bool))
    (hrows : mask.length = g.numsteps_y)
    (hcols : ∀ row ∈ mask, row.length = g.numsteps_x) :
    (∀ row ∈ paddedMask g mask,
        row.length = g.extrasteps_left + g.numsteps_x + g.extrasteps_right
      ∧ row.take g.extrasteps_left = List.replicate g.extrasteps_left false
      ∧ row.drop (g.extrasteps_left + g.numsteps_x)
          = List.replicate g.extrasteps_right false)
    ∧ encodeMask g mask
        = (paddedMask g mask).flatten.flatMap
            (List.replicate g.pixel_samples)
    ∧ (encodeMask g mask).length = g.total_samples := by
  have rowlen : ∀ r < g.numsteps_y, (mask.getD r []).length = g.numsteps_x := by
    intro r hr
    have hmem : mask.getD r [] ∈ mask := by
      have hlt : r < mask.length := by rw [hrows]; exact hr
      rw [List.getD_eq_getElem _ _ hlt]
      exact List.getElem_mem hlt
    exact hcols _ hmem
  have rowfacts : ∀ row ∈ paddedMask g mask,
      row.length = g.extrasteps_left + g.numsteps_x + g.extrasteps_right
    ∧ row.take g.extrasteps_left = List.replicate g.extrasteps_left false
    ∧ row.drop (g.extrasteps_left + g.numsteps_x)
        = List.replicate g.extrasteps_right false := by
    intro row hrow
    obtain ⟨r, hr, rfl⟩ := List.mem_map.mp hrow
    have hr2 : r < g.numsteps_y := List.mem_range.mp hr
    have hlen := rowlen r hr2
    refine ⟨?_, ?_, ?_⟩
    · rw [padRow]
      simp only [List.length_append, List.length_replicate, hlen]
    · rw [padRow, List.append_assoc]
      exact List.take_left' (List.length_replicate _ _)
    · rw [padRow, List.append_assoc, ← List.drop_drop]
      rw [List.drop_left' (List.length_replicate _ _)]
      exact List.drop_left' hlen
  refine ⟨rowfacts, rfl, ?_⟩
  have maplen : List.map List.length (paddedMask g mask)
      = List.replicate g.numsteps_y g.total_x := by
    rw [paddedMask, List.map_map]
    have step : ∀ r ∈ List.range g.numsteps_y,
        (List.length ∘ fun r => padRow g (mask.getD r [])) r
          = Function.const Nat g.total_x r := by
      intro r hr
      have hlen := rowlen r (List.mem_range.mp hr)
      simp only [Function.comp_apply, Function.const_apply, padRow,
        List.length_append, List.length_replicate, hlen, Galvo.total_x]
      omega
    rw [List.map_congr_left step, List.map_const, List.length_range]
  have flatlen : (paddedMask g mask).flatten.length
      = g.numsteps_y * g.total_x := by
    rw [List.length_flatten, maplen, List.sum_replicate, smul_eq_mul]
  have constrep : (List.length ∘ fun b : Bool => List.replicate g.pixel_samples b)
      = Function.const Bool g.pixel_samples := by
    funext b
    simp [Function.const]
  rw [encodeMask, List.length_flatMap, constrep, List.map_const,
    List.sum_replicate, smul_eq_mul, flatlen, Galvo.total_samples,
    Galvo.total_y]
  ring

/-- Witness for C3 at a concrete mask of shape `2 × 4`. -/
theorem encodeMask_pads_then_repeats_witness :
    exMask.length = exGalvo.numsteps_y
      ∧ (encodeMask exGalvo exMask).length = exGalvo.total_samples :=
  ⟨by decide,
    (encodeMask_pads_then_repeats exGalvo exMask (by decide) (by decide)).2.2⟩

/-- C1 (refuted by the code): in the `raster_scan_with_ttl` body, the master
analog-output task is started BEFORE the digital-modulation task (start order
is ai, ao, do at lines 130–132), so its start call does not occur strictly
after the start call of the modulation task; `raster_scan` and the reference
`raster_scan_rpoc` do start the master output task last. -/
theorem rasterScanWithTtl_master_start_not_last (g : Galvo) (nAi : Nat) :
    startIdx .ai (rasterScanWithTtlEvents g nAi) = 9
  ∧ startIdx .ao (rasterScanWithTtlEvents g nAi) = 10
  ∧ startIdx .dout (rasterScanWithTtlEvents g nAi) = 11
  ∧ (rasterScanWithTtlEvents g nAi).length = 16
  ∧ startIdx .ai (rasterScanEvents g nAi)
      < startIdx .ao (rasterScanEvents g nAi)
  ∧ startIdx .ao (rasterScanEvents g nAi) < (rasterScanEvents g nAi).length
  ∧ startIdx .ai (rasterScanRpocEvents g nAi)
      < startIdx .ao (rasterScanRpocEvents g nAi)
  ∧ startIdx .dout (rasterScanRpocEvents g nAi)
      < startIdx .ao (rasterScanRpocEvents g nAi)
  ∧ startIdx .ao (rasterScanRpocEvents g nAi)
      < (rasterScanRpocEvents g nAi).length := by
  have h1 : startIdx .ai (rasterScanEvents g nAi) = 6 := rfl
  have h2 : startIdx .ao (rasterScanEvents g nAi) = 7 := rfl
  have h3 : (rasterScanEvents g nAi).length = 11 := rfl
  have h4 : startIdx .ai (rasterScanRpocEvents g nAi) = 8 := rfl
  have h5 : startIdx .dout (rasterScanRpocEvents g nAi) = 9 := rfl
  have h6 : startIdx .ao (rasterScanRpocEvents g nAi) = 10 := rfl
  have h7 : (rasterScanRpocEvents g nAi).length = 15 := rfl
  refine ⟨rfl, rfl, rfl, rfl, ?_, ?_, ?_, ?_, ?_⟩ <;> omega

/-- Witness for C1 at the concrete configuration, one AI channel. -/
theorem rasterScanWithTtl_master_start_not_last_witness :
    startIdx .ao (rasterScanWithTtlEvents exGalvo 1) = 10
      ∧ startIdx .dout (rasterScanWithTtlEvents exGalvo 1) = 11 :=
  ⟨(rasterScanWithTtl_master_start_not_last exGalvo 1).2.1,
    (rasterScanWithTtl_master_start_not_last exGalvo 1).2.2.1⟩

/-- C5: in both `raster_scan` and `raster_scan_with_ttl`, the analog-output
task's final sample-clock configuration is internally generated at `rate`,
and the analog-input and digital-output tasks are clocked from
`/<device>/ao/SampleClock` at the same rate and the same total sample
count. -/
theorem tasks_slaved_to_master_clock (g : Galvo) (nAi : Nat) :
    lastCfg .ao (rasterScanEvents g nAi)
        = some ⟨g.rate, none, g.total_samples⟩
  ∧ lastCfg .ai (rasterScanEvents g nAi)
        = some ⟨g.rate, some (aoClock g), g.total_samples⟩
  ∧ lastCfg .ao (rasterScanWithTtlEvents g nAi)
        = some ⟨g.rate, none, g.total_samples⟩
  ∧ lastCfg .ai (rasterScanWithTtlEvents g nAi)
        = some ⟨g.rate, some (aoClock g), g.total_samples⟩
  ∧ lastCfg .dout (rasterScanWithTtlEvents g nAi)
        = some ⟨g.rate, some (aoClock g), g.total_samples⟩
  ∧ aoClock g = "/" ++ g.device ++ "/ao/SampleClock" :=
  ⟨rfl, rfl, rfl, rfl, rfl, rfl⟩

/-- Witness for C5 at the concrete configuration, one AI channel. -/
theorem tasks_slaved_to_master_clock_witness :
    lastCfg .ai (rasterScanEvents exGalvo 1)
      = some ⟨exGalvo.rate, some (aoClock exGalvo), exGalvo.total_samples⟩ :=
  (tasks_slaved_to_master_clock exGalvo 1).2.1

/-- C6: after the start calls, both scan functions wait on every one of
their tasks with timeout `total_samples / rate + 5`, and the input buffer of
`total_samples` per channel is read only after the last wait. -/
theorem waits_on_all_tasks_then_reads (g : Galvo) (nAi : Nat) :
    (rasterScanEvents g nAi).drop 8
        = [.waitDone .ao (scanTimeout g), .waitDone .ai (scanTimeout g),
           .read g.total_samples]
  ∧ (rasterScanEvents g nAi).length = 11
  ∧ (rasterScanWithTtlEvents g nAi).drop 12
        = [.waitDone .ao (scanTimeout g), .waitDone .ai (scanTimeout g),
           .waitDone .dout (scanTimeout g), .read g.total_samples]
  ∧ (rasterScanWithTtlEvents g nAi).length = 16
  ∧ scanTimeout g = (g.total_samples : ℚ) / g.rate + 5 :=
  ⟨rfl, rfl, rfl, rfl, rfl⟩

/-- Witness for C6 at the concrete configuration, one AI channel. -/
theorem waits_on_all_tasks_then_reads_witness :
    (rasterScanEvents exGalvo 1).drop 8
      = [.waitDone .ao (scanTimeout exGalvo),
         .waitDone .ai (scanTimeout exGalvo),
         .read exGalvo.total_samples] :=
  (waits_on_all_tasks_then_reads exGalvo 1).1

/-- C9: executing `raster_scan_with_ttl` under the module's actual global
names stops with a `NameError` on `LineGrouping` at the add-digital-channel
call; the calls executed before the error contain no task start, so the
function can never complete an acquisition. -/
theorem rasterScanWithTtl_LineGrouping_unresolved (g : Galvo) (nAi : Nat) :
    runSteps runImage2dGlobals (rasterScanWithTtlSteps g nAi)
        = ([.addChans .ao g.ao_chans.length,
            .cfgTiming .ao ⟨g.rate, none, g.waveformLen⟩,
            .addChans .ai nAi,
            .cfgTiming .ao ⟨g.rate, none, g.total_samples⟩,
            .cfgTiming .ai ⟨g.rate, some (aoClock g), g.total_samples⟩],
           some "LineGrouping")
  ∧ ∀ e ∈ (runSteps runImage2dGlobals (rasterScanWithTtlSteps g nAi)).1,
      isStart e = false := by
  have h : runSteps runImage2dGlobals (rasterScanWithTtlSteps g nAi)
      = ([.addChans .ao g.ao_chans.length,
          .cfgTiming .ao ⟨g.rate, none, g.waveformLen⟩,
          .addChans .ai nAi,
          .cfgTiming .ao ⟨g.rate, none, g.total_samples⟩,
          .cfgTiming .ai ⟨g.rate, some (aoClock g), g.total_samples⟩],
         some "LineGrouping") := rfl
  refine ⟨h, ?_⟩
  intro e he
  rw [h] at he
  simp only [List.mem_cons, List.not_mem_nil, or_false] at he
  rcases he with rfl | rfl | rfl | rfl | rfl <;> rfl

/-- Witness for C9 at the concrete configuration, exercising the
no-start-event property on the first executed call. -/
theorem rasterScanWithTtl_LineGrouping_unresolved_witness :
    Event.addChans TaskId.ao exGalvo.ao_chans.length
        ∈ (runSteps runImage2dGlobals (rasterScanWithTtlSteps exGalvo 1)).1
      ∧ isStart (Event.addChans TaskId.ao exGalvo.ao_chans.length) = false := by
  have hmem : Event.addChans TaskId.ao exGalvo.ao_chans.length
      ∈ (runSteps runImage2dGlobals (rasterScanWithTtlSteps exGalvo 1)).1 := by
    rw [(rasterScanWithTtl_LineGrouping_unresolved exGalvo 1).1]
    exact List.mem_cons_self _ _
  exact ⟨hmem,
    (rasterScanWithTtl_LineGrouping_unresolved exGalvo 1).2 _ hmem⟩

/-- C10: the TTL signal has length `total_samples`, equals `1` on exactly the
first `total_samples / 2` entries and `0` on all the rest, and is a function
of `total_samples` alone — no mask enters its construction. -/
theorem ttlSignal_half_high (g g2 : Galvo)
    (hsame : g.total_samples = g2.total_samples) :
    (ttlSignal g).length = g.total_samples
  ∧ (∀ i, (ttlSignal g).getD i 0
        = if i < g.total_samples / 2 then 1 else 0)
  ∧ ttlSignal g = ttlSignal g2 := by
  refine ⟨by simp [ttlSignal], ?_, ?_⟩
  · intro i
    by_cases h : i < g.total_samples
    · rw [List.getD_eq_getElem?_getD, ttlSignal, List.getElem?_map,
        List.getElem?_range h]
      rfl
    · have h2 : ¬ i < g.total_samples / 2 := fun hc =>
        h (lt_of_lt_of_le hc (Nat.div_le_self _ _))
      rw [List.getD_eq_default _ _ (by simpa [ttlSignal] using not_lt.mp h)]
      simp [h2]
  · rw [ttlSignal, ttlSignal, hsame]

/-- Witness for C10 at two configurations with equal `total_samples`. -/
theorem ttlSignal_half_high_witness :
    exGalvo.total_samples
        = ({ exGalvo with device := "Dev2" } : Galvo).total_samples
      ∧ (ttlSignal exGalvo).length = exGalvo.total_samples :=
  ⟨rfl, (ttlSignal_half_high exGalvo { exGalvo with device := "Dev2" } rfl).1⟩

/-- C7: `raster_scan` returns exactly one image per requested channel, the
image at index `i` being reconstructed from channel `i`'s samples, and a bare
string channel yields the one-element result for that channel. -/
theorem rasterScanImages_ordered_per_channel (g : Galvo)
    (chans : List String) (dataOf : Nat → List ℚ) :
    (rasterScanImages g chans dataOf).length = chans.length
  ∧ (∀ i, i < chans.length →
      (rasterScanImages g chans dataOf).getD i []
        = reconstruct g (dataOf i))
  ∧ (∀ s : String,
      rasterScanImages g (normalizeChannels (Sum.inl s)) dataOf
        = [reconstruct g (dataOf 0)]) := by
  refine ⟨?_, ?_, ?_⟩
  · by_cases h : chans.length = 1 <;> simp [rasterScanImages, h]
  · intro i hi
    by_cases h : chans.length = 1
    · have hi0 : i = 0 := by omega
      subst hi0
      simp [rasterScanImages, h]
    · rw [rasterScanImages, if_neg h, List.getD_eq_getElem?_getD,
        List.getElem?_map, List.getElem?_range hi]
      rfl
  · intro s
    simp [rasterScanImages, normalizeChannels]

/-- Witness for C7 with two channels and distinct buffers. -/
theorem rasterScanImages_ordered_per_channel_witness :
    (1 : Nat) < (["Dev1/ai0", "Dev1/ai1"] : List String).length
      ∧ (rasterScanImages exGalvo ["Dev1/ai0", "Dev1/ai1"]
            fun i => if i = 0 then exBuf else []).getD 1 []
          = reconstruct exGalvo [] :=
  ⟨by decide,
    (rasterScanImages_ordered_per_channel exGalvo ["Dev1/ai0", "Dev1/ai1"]
      fun i => if i = 0 then exBuf else []).2.1 1 (by decide)⟩

/-- C8: with the `running` flag set, `start_scan` returns unchanged without
launching a scan thread, and `acquire` returns without acquiring unless it is
the startup call (at startup it does proceed). -/
theorem running_flag_blocks_reentry (gui : Gui) (startup : Bool)
    (h : gui.running = true) :
    start_scan gui = gui
  ∧ (start_scan gui).threadsStarted = gui.threadsStarted
  ∧ (startup = false → acquire gui startup = (gui, false))
  ∧ (startup = true → (acquire gui startup).2 = true) := by
  refine ⟨by simp [start_scan, h], by simp [start_scan, h], ?_, ?_⟩
  · intro hs
    simp [acquire, h, hs]
  · intro hs
    simp [acquire, h, hs]

/-- Witness for C8 at a concrete running state. -/
theorem running_flag_blocks_reentry_witness :
    (⟨true, false, false, false, 0⟩ : Gui).running = true
      ∧ start_scan ⟨true, false, false, false, 0⟩
          = ⟨true, false, false, false, 0⟩
      ∧ acquire ⟨true, false, false, false, 0⟩ false
          = (⟨true, false, false, false, 0⟩, false) :=
  ⟨rfl, (running_flag_blocks_reentry ⟨true, false, false, false, 0⟩ false
          rfl).1,
    (running_flag_blocks_reentry ⟨true, false, false, false, 0⟩ false
          rfl).2.2.1 rfl⟩

theorem acquireMultiple_go {E Img : Type} (acc : List Img)
    (frames : List (Except E Img)) :
    frames.foldl
        (fun acc f =>
          match f with
          | .ok d => acc ++ [d]
          | .error _ => acc) acc
      = acc ++ frames.filterMap exceptOk := by
  induction frames generalizing acc with
  | nil => simp
  | cons f rest ih =>
    cases f with
    | ok d => simp [List.foldl_cons, ih, exceptOk, List.filterMap_cons]
    | error e => simp [List.foldl_cons, ih, exceptOk, List.filterMap_cons]

theorem scanLoop_clears_running {E Img : Type} (s : ScanState Img)
    (l : List (Except E Img)) : (scanLoop s l).running = false := by
  induction l generalizing s with
  | nil => rfl
  | cons f rest ih =>
    cases f with
    | ok d => by_cases h : s.running <;> simp [scanLoop, h, ih, scanFinalize]
    | error e => by_cases h : s.running <;> simp [scanLoop, h, scanFinalize]

theorem scanLoop_stops_at_error {E Img : Type} (oks : List Img) (e : E)
    (post : List (Except E Img)) (s : ScanState Img)
    (hs : s.running = true) :
    scanLoop s (oks.map Except.ok ++ Except.error e :: post)
      = { running := false, displayed := s.displayed ++ oks } := by
  induction oks generalizing s with
  | nil => simp [scanLoop, hs, scanFinalize]
  | cons d rest ih =>
    have step : scanLoop s ((d :: rest).map Except.ok ++ Except.error e :: post)
        = scanLoop { s with displayed := s.displayed ++ [d] }
            (rest.map Except.ok ++ Except.error e :: post) := by
      simp only [List.map_cons, List.cons_append, scanLoop, hs, if_true,
        List.append_eq]
    rw [step, ih { s with displayed := s.displayed ++ [d] } hs]
    simp

/-- C4: in `acquire_multiple`, a frame error contributes nothing and the
batch continues with the remaining frames (the result is exactly the
successful frames, in order); in `scan`, any frame error terminates the
streaming loop — frames after it are never displayed — and `running` is
cleared on every exit path. -/
theorem frame_failure_aborts_only_frame {E Img : Type}
    (pre post : List (Except E Img)) (e : E) (oks : List Img)
    (s : ScanState Img) (hs : s.running = true) :
    acquireMultiple (pre ++ Except.error e :: post)
        = acquireMultiple pre ++ acquireMultiple post
  ∧ (∀ frames : List (Except E Img),
      acquireMultiple frames = frames.filterMap exceptOk)
  ∧ (∀ l : List (Except E Img), (scanLoop s l).running = false)
  ∧ scanLoop s (oks.map Except.ok ++ Except.error e :: post)
      = { running := false, displayed := s.displayed ++ oks } := by
  have hall : ∀ frames : List (Except E Img),
      acquireMultiple frames = frames.filterMap exceptOk := fun frames =>
    acquireMultiple_go [] frames |>.trans (by simp)
  refine ⟨?_, hall, fun l => scanLoop_clears_running s l,
    scanLoop_stops_at_error oks e post s hs⟩
  rw [hall, hall, hall, List.filterMap_append, List.filterMap_cons]
  simp [exceptOk]

/-- Witness for C4: a three-frame batch with one failing frame, and a stream
that dies at that frame. -/
theorem frame_failure_aborts_only_frame_witness :
    acquireMultiple
        ([Except.ok 1, Except.error "fault", Except.ok 2]
          : List (Except String ℚ))
      = acquireMultiple ([Except.ok 1] : List (Except String ℚ))
          ++ acquireMultiple ([Except.ok 2] : List (Except String ℚ))
    ∧ scanLoop ⟨true, []⟩
        ([Except.ok 1, Except.error "fault", Except.ok 2]
          : List (Except String ℚ))
      = ⟨false, [1]⟩ := by
  have h := frame_failure_aborts_only_frame [Except.ok (1 : ℚ)]
    [Except.ok (2 : ℚ)] "fault" [1] ⟨true, []⟩ rfl
  exact ⟨h.1, by simpa using h.2.2.2⟩
